import Mathlib

/-!
Shallow embedding of the ReasonLoop repository sources, restricted to the
parts the verified claims are about:

* `src/models/task.py`            — the `Task` dataclass: `from_dict`,
  `mark_complete`, the effective `__str__` (second definition wins in
  Python), `__getattr__` fallthrough into `_additional_attributes`.
* `src/abilities/ability_registry.py` — `get_ability`, `execute_ability`
  with its prompt/response logging on both the success and error paths.
* `src/abilities/text_completion.py`  — `text_completion_ability` and
  `_ollama_completion`, whose HTTP interaction is modelled as an explicit
  outcome parameter.
* `src/utils/prompt_templates.py` — `PROMPT_TEMPLATES` and
  `get_prompt_template` (lowercased kwargs, manual placeholder
  replacement, strip, fallback to the default template).

Python being dynamically typed, plain values are modelled by the inductive
`Value`; dictionaries by association lists with Python `dict` semantics
(unique keys, insertion order, `pop` removes); raised exceptions by
`Except PyErr`.  `datetime.now()` is threaded as an explicit parameter and
`datetime.fromisoformat` is modelled as fallible: which strings the
stdlib parser accepts is external-library behaviour, threaded as an
explicit predicate `isoOk`, with a successful parse yielding the tagged
value `PyTime.fromIso s` and a failed one the stdlib's `ValueError`.
HTTP requests are modelled by an explicit `HttpOutcome` parameter
standing for the network's behaviour.
-/

/-- A timestamp value: either produced by `datetime.fromisoformat` on a
string, or a clock reading from `datetime.now()` (abstracted as a
natural number tick). -/
inductive PyTime where
  | fromIso (s : String)
  | clock (n : Nat)
  deriving Repr, DecidableEq

/-- A dynamically-typed Python value, as far as the embedded code needs. -/
inductive Value where
  | none
  | bool (b : Bool)
  | int (n : Int)
  | str (s : String)
  | list (xs : List Value)
  | dict (xs : List (String × Value))
  | time (t : PyTime)
  deriving Repr

/-- Structural decidable equality for `Value` (the nested occurrences in
`list`/`dict` prevent `deriving DecidableEq`). -/
def Value.beq : Value → Value → Bool
  | .none, .none => true
  | .bool a, .bool b => a == b
  | .int a, .int b => a == b
  | .str a, .str b => a == b
  | .time a, .time b => a == b
  | .list xs, .list ys => beqList xs ys
  | .dict xs, .dict ys => beqDict xs ys
  | _, _ => false
where
  beqList : List Value → List Value → Bool
    | [], [] => true
    | x :: xs, y :: ys => x.beq y && beqList xs ys
    | _, _ => false
  beqDict : List (String × Value) → List (String × Value) → Bool
    | [], [] => true
    | (k, x) :: xs, (l, y) :: ys => k == l && x.beq y && beqDict xs ys
    | _, _ => false

instance : BEq Value := ⟨Value.beq⟩

/-- Python truthiness (`if x:`): `None`, `False`, `0`, `""`, `[]`, `{}`
are falsy, everything else truthy. -/
def Value.truthy : Value → Bool
  | .none => false
  | .bool b => b
  | .int n => n != 0
  | .str s => s ≠ ""
  | .list xs => !xs.isEmpty
  | .dict xs => !xs.isEmpty
  | .time _ => true

/-- Model of `isinstance(x, str)`. -/
def Value.isStr : Value → Bool
  | .str _ => true
  | _ => false

/-- A Python `dict` with string keys, modelled as an association list in
insertion order with unique keys. -/
abbrev Dict := List (String × Value)

/-- Model of the `d.get(k)` / `d[k]` lookup. -/
def dget (d : Dict) (k : String) : Option Value :=
  (d.find? fun p => p.1 == k).map (·.2)

/-- Removal of a key, as performed by `dict.pop`. -/
def dremove (d : Dict) (k : String) : Dict :=
  d.filter fun p => p.1 != k

/-- Model of `d.pop(k, default)`: the popped value (or the default) together with
the dictionary after removal. -/
def dpop (d : Dict) (k : String) (default : Value) : Value × Dict :=
  ((dget d k).getD default, dremove d k)

/-- The Python exceptions the embedded code can raise. -/
inductive PyErr where
  | keyError (k : String)
  | attributeError (msg : String)
  | valueError (msg : String)
  | typeError (msg : String)
  deriving Repr, DecidableEq

/-- Rendering `str(e)` of a raised exception, as used when `execute_ability` logs
the error. -/
def PyErr.msg : PyErr → String
  | .keyError k => "\x27" ++ k ++ "\x27"
  | .attributeError m => m
  | .valueError m => m
  | .typeError m => m

/-- Rendering `str(x)` of a value, as used by f-string interpolation in the sources.
Lists and dicts render in Python's bracketed style; exact rendering of
nested values is only needed up to its being a definite string. -/
def Value.pyStr : Value → String
  | .none => "None"
  | .bool b => if b then "True" else "False"
  | .int n => toString n
  | .str s => s
  | .list xs => "[" ++ String.intercalate ", " (pyStrList xs) ++ "]"
  | .dict xs => "\x7b" ++ String.intercalate ", " (pyStrDict xs) ++ "\x7d"
  | .time (.fromIso s) => s
  | .time (.clock n) => "datetime(" ++ toString n ++ ")"
where
  pyStrList : List Value → List String
    | [] => []
    | x :: xs => x.pyStr :: pyStrList xs
  pyStrDict : List (String × Value) → List String
    | [] => []
    | (k, x) :: xs => ("\x27" ++ k ++ "\x27: " ++ x.pyStr) :: pyStrDict xs

/-- Python `s.lower()`, written structurally (character map) so that it
evaluates by reduction. -/
def pyLower (s : String) : String :=
  String.mk (s.toList.map Char.toLower)

/-- The Python type name of a value, as it appears in runtime error
messages. -/
def Value.typeName : Value → String
  | .none => "NoneType"
  | .bool _ => "bool"
  | .int _ => "int"
  | .str _ => "str"
  | .list _ => "list"
  | .dict _ => "dict"
  | .time _ => "datetime.datetime"

namespace ReasonLoop

/-! ## `src/models/task.py` -/

/-- The `Task` dataclass.  Field types mirror the dynamically-typed
Python object: `from_dict` assigns whatever the descriptor carried, so
the fields hold `Value`s.  `_additional_attributes` is the extra-field
bag consulted by `__getattr__`. -/
structure Task where
  id : Value
  status : Value := .str "incomplete"
  ability : Value := .str "text-completion"
  dependent_task_ids : Value := .list []
  output : Value := .none
  created_at : Value
  completed_at : Value := .none
  metadata : Value := .dict []
  _additional_attributes : Dict := []
  deriving Repr

/-- Model of `datetime.fromisoformat(s)`: parses an ISO-formatted string
or raises `ValueError("Invalid isoformat string: ...")`.  Which strings
the stdlib parser accepts is external-library behaviour, threaded as the
predicate `isoOk`; a successful parse yields the tagged value
`PyTime.fromIso s`. -/
def fromisoformat (isoOk : String → Bool) (s : String) : Except PyErr PyTime :=
  if isoOk s then .ok (.fromIso s)
  else .error (.valueError ("Invalid isoformat string: \x27" ++ s ++ "\x27"))

/-- Lines 41-45 of `task.py`: a truthy string `created_at` goes through
`datetime.fromisoformat` (which may raise); anything else is replaced by
`datetime.now()`. -/
def convert_created_at (isoOk : String → Bool) (now : PyTime) (v : Value) :
    Except PyErr Value :=
  match v with
  | .str s =>
    if s ≠ "" then (fromisoformat isoOk s).map (fun t => .time t)
    else .ok (.time now)
  | _ => .ok (.time now)

/-- Lines 47-49 of `task.py`: a truthy string `completed_at` goes through
`datetime.fromisoformat` (which may raise); anything else is kept as
popped. -/
def convert_completed_at (isoOk : String → Bool) (v : Value) :
    Except PyErr Value :=
  match v with
  | .str s =>
    if s ≠ "" then (fromisoformat isoOk s).map (fun t => .time t)
    else .ok (.str s)
  | v => .ok v

/-- Model of `Task.from_dict(data)`.  `data.pop("id")` raises `KeyError` when the
key is absent; every other field is popped with its default; a malformed
non-empty `created_at`/`completed_at` string makes
`datetime.fromisoformat` raise `ValueError`, and no task is built.  The
mutation of the caller's dictionary is made explicit: the second
component of the result is the dictionary's state after a successful
call, and it is the very dictionary stored as `_additional_attributes`.
`now` stands for `datetime.now()` and `isoOk` for the strings the stdlib
ISO parser accepts. -/
def Task.from_dict (data : Dict) (now : PyTime) (isoOk : String → Bool) :
    Except PyErr (Task × Dict) :=
  match dget data "id" with
  | Option.none => .error (.keyError "id")
  | Option.some task_id =>
    let data := dremove data "id"
    let (status, data) := dpop data "status" (.str "incomplete")
    let (ability, data) := dpop data "ability" (.str "text-completion")
    let (dependent_task_ids, data) := dpop data "dependent_task_ids" (.list [])
    let (created_at0, data) := dpop data "created_at" .none
    match convert_created_at isoOk now created_at0 with
    | .error e => .error e
    | .ok created_at =>
      let (completed_at0, data) := dpop data "completed_at" .none
      match convert_completed_at isoOk completed_at0 with
      | .error e => .error e
      | .ok completed_at =>
        let (output, data) := dpop data "output" .none
        let (metadata, data) := dpop data "metadata" (.dict [])
        let task : Task :=
          { id := task_id
            status := status
            ability := ability
            dependent_task_ids := dependent_task_ids
            output := output
            created_at := created_at
            completed_at := completed_at
            metadata := metadata
            _additional_attributes := data }
        .ok (task, data)

/-- Model of `task.mark_complete(output)`: sets status to `"complete"`, stores the
output and stamps `completed_at` with `datetime.now()` (threaded as
`now`). -/
def Task.mark_complete (t : Task) (output : String) (now : PyTime) : Task :=
  { t with status := .str "complete", output := .str output,
           completed_at := .time now }

/-- Attribute access `task.name`, including the `__getattr__` fallthrough
into `_additional_attributes` for names that are not dataclass fields
(raises `AttributeError` when absent there too). -/
def Task.getattr (t : Task) (name : String) : Except PyErr Value :=
  if name = "id" then .ok t.id
  else if name = "status" then .ok t.status
  else if name = "ability" then .ok t.ability
  else if name = "dependent_task_ids" then .ok t.dependent_task_ids
  else if name = "output" then .ok t.output
  else if name = "created_at" then .ok t.created_at
  else if name = "completed_at" then .ok t.completed_at
  else if name = "metadata" then .ok t.metadata
  else
    match dget t._additional_attributes name with
    | Option.some v => .ok v
    | Option.none =>
        .error (.attributeError
          ("\x27Task\x27 object has no attribute \x27" ++ name ++ "\x27"))

/-- The effective `__str__` of `Task`: the file defines `__str__` twice
and Python keeps the second, which interpolates `self.task` — an
attribute resolved through `__getattr__`, hence a possible
`AttributeError`. -/
def Task.toPyString (t : Task) : Except PyErr String := do
  let tk ← t.getattr "task"
  let deps :=
    if t.dependent_task_ids.truthy then
      " (depends on: " ++ t.dependent_task_ids.pyStr ++ ")"
    else ""
  pure ("Task #" ++ t.id.pyStr ++ ": " ++ tk.pyStr ++ " [" ++
        t.status.pyStr ++ "] [" ++ t.ability.pyStr ++ "]" ++ deps)

/-! ## `src/abilities/ability_registry.py` -/

/-- An ability function: positional arguments and keyword arguments in,
either a value or a raised exception out. -/
abbrev AbilityFn := List Value → Dict → Except PyErr Value

/-- Model of `get_ability(name)`: dictionary lookup in `ABILITY_REGISTRY` (the
registry is threaded as the explicit parameter `reg`). -/
def get_ability (reg : List (String × AbilityFn)) (name : String) :
    Option AbilityFn :=
  (reg.find? fun p => p.1 == name).map (·.2)

/-- One record handed to `utils.prompt_logger.log_prompt` by
`execute_ability`: the prompt, the response text (or `"ERROR: ..."`),
the ability name, the task id, and the metadata fields the call builds
(`execution_time`, `error`, `args`, `kwargs`).  `log_prompt` itself
lives outside `src/`; the model records the call's arguments. -/
structure LogEntry where
  prompt : String
  response : String
  ability : String
  task_id : Value
  execution_time : Nat
  error : Option String
  extra_args : Option String
  extra_kwargs : Option String
  deriving Repr

/-- Model of `execute_ability(name, *args, **kwargs)`.  Returns the ability's
result (or re-raises its exception) together with the list of
`log_prompt` reports the call made, in order.  `execution_time` stands
for the `time.time()` difference measured around the attempt.  Python
renders `str(args)` / `str(args[1:])` with tuple parentheses; the model
renders those diagnostic strings through `Value.pyStr` on a list, which
only matters for the logged `args` metadata text. -/
def execute_ability (reg : List (String × AbilityFn)) (name : String)
    (args : List Value) (kwargs : Dict) (execution_time : Nat) :
    Except PyErr Value × List LogEntry :=
  match get_ability reg name with
  | Option.none => (.error (.valueError ("Ability not found: " ++ name)), [])
  | Option.some ability =>
    let (task_id, kwargs) := dpop kwargs "task_id" .none
    let prompt : String :=
      match args with
      | .str s :: _ => s
      | _ => (Value.list args).pyStr
    let extra_args : Option String :=
      if args.length > 1 then Option.some (Value.list args.tail).pyStr
      else Option.none
    let extra_kwargs : Option String :=
      if kwargs.isEmpty then Option.none
      else Option.some (Value.dict kwargs).pyStr
    match ability args kwargs with
    | .ok response =>
        (.ok response,
         [{ prompt := prompt
            response := match response with | .str s => s | v => v.pyStr
            ability := name
            task_id := task_id
            execution_time := execution_time
            error := Option.none
            extra_args := extra_args
            extra_kwargs := extra_kwargs }])
    | .error e =>
        (.error e,
         [{ prompt := prompt
            response := "ERROR: " ++ e.msg
            ability := name
            task_id := task_id
            execution_time := execution_time
            error := Option.some e.msg
            extra_args := extra_args
            extra_kwargs := extra_kwargs }])

/-! ## `src/abilities/text_completion.py`

The HTTP interaction of each `_*_completion` helper —
`requests.post(...)`, `response.raise_for_status()`, `response.json()` —
is modelled by the explicit parameter `HttpOutcome`: either the request
succeeded with a JSON object body, or one of those three steps raised
(connection error, non-2xx status, undecodable body) with the given
exception text.  The request payload each helper assembles (model name,
prompt, sampling parameters read through `get_setting`) only feeds the
network and never the returned value given the outcome, so it is
absorbed into the `HttpOutcome` parameter (its float-valued sampling
parameters are outside the embedding). -/

/-- Outcome of an HTTP POST round-trip as observed by the `try` block. -/
inductive HttpOutcome where
  | body (result : Dict)
  | failure (e : String)
  deriving Repr

/-- Model of `get_setting(key, default)` from `config/settings.py`, with the
settings mapping threaded explicitly. -/
def get_setting (settings : Dict) (key : String) (default : Value) : Value :=
  (dget settings key).getD default

/-- Model of `_ollama_completion(prompt)`: on success returns
`result.get("response", "")`; any exception in the `try` block is caught
and an error string is returned normally. -/
def ollama_completion (http : HttpOutcome) (prompt : String) : Value :=
  match http with
  | .body result => (dget result "response").getD (.str "")
  | .failure e => .str ("Error calling Ollama API: " ++ e)

/-- Python `for`-iteration over a value, as used by
`_anthropic_completion`; non-iterables raise `TypeError` (caught by the
surrounding `try`, hence the plain `String` error of the message). -/
def pyIter (v : Value) : Except String (List Value) :=
  match v with
  | .list xs => .ok xs
  | .dict xs => .ok (xs.map fun p => .str p.1)
  | .str s => .ok (s.toList.map fun c => .str (String.mk [c]))
  | v => .error ("\x27" ++ v.typeName ++ "\x27 object is not iterable")

/-- Python subscripting `v[k]` with a string key; failures raise inside
the surrounding `try`. -/
def pySubscript (v : Value) (k : String) : Except String Value :=
  match v with
  | .dict d =>
    match dget d k with
    | Option.some x => .ok x
    | Option.none => .error ("\x27" ++ k ++ "\x27")
  | .str _ => .error "string indices must be integers"
  | .list _ => .error "list indices must be integers or slices, not str"
  | v => .error ("\x27" ++ v.typeName ++ "\x27 object is not subscriptable")

/-- The block scan of `_anthropic_completion`: first content block whose
`"type"` equals `"text"` yields its `"text"` field; an exhausted loop
yields `""`. -/
def anthropic_blocks : List Value → Except String Value
  | [] => .ok (.str "")
  | b :: bs => do
    let ty ← pySubscript b "type"
    if ty == Value.str "text" then pySubscript b "text"
    else anthropic_blocks bs

/-- Model of `_anthropic_completion(prompt)`: parses Anthropic\x27s response
format; every exception inside the `try` is caught and turned into a
normally returned error string. -/
def anthropic_completion (http : HttpOutcome) (prompt : String) : Value :=
  match http with
  | .failure e => .str ("Error calling Anthropic API: " ++ e)
  | .body result =>
    match dget result "content" with
    | Option.none => .str ""
    | Option.some contentVal =>
      match (do
        let blocks ← pyIter contentVal
        anthropic_blocks blocks : Except String Value) with
      | .ok v => v
      | .error e => .str ("Error calling Anthropic API: " ++ e)

/-- Python `v.get(k, default)`; non-dicts raise `AttributeError` inside
the surrounding `try`. -/
def pyGet (v : Value) (k : String) (default : Value) : Except String Value :=
  match v with
  | .dict d => .ok ((dget d k).getD default)
  | v => .error ("\x27" ++ v.typeName ++ "\x27 object has no attribute \x27get\x27")

/-- Python `v[0]`; failures raise inside the surrounding `try`. -/
def pyIndex0 (v : Value) : Except String Value :=
  match v with
  | .list [] => .error "list index out of range"
  | .list (x :: _) => .ok x
  | .str s =>
    if s = "" then .error "string index out of range"
    else .ok (.str (String.mk [s.get 0]))
  | v => .error ("\x27" ++ v.typeName ++ "\x27 object is not subscriptable")

/-- Model of `_openai_completion(prompt)`:
`result.get("choices", [{}])[0].get("message", {}).get("content", "")`;
every exception inside the `try` is caught and turned into a normally
returned error string. -/
def openai_completion (http : HttpOutcome) (prompt : String) : Value :=
  match http with
  | .failure e => .str ("Error calling OpenAI API: " ++ e)
  | .body result =>
    match (do
      let choices := (dget result "choices").getD (.list [.dict []])
      let first ← pyIndex0 choices
      let message ← pyGet first "message" (.dict [])
      pyGet message "content" (.str "") : Except String Value) with
    | .ok v => v
    | .error e => .str ("Error calling OpenAI API: " ++ e)

/-- Model of `text_completion_ability(prompt)`: dispatches on
`get_setting("LLM_PROVIDER").lower()`.  A non-string provider setting
would make `.lower()` raise `AttributeError`, hence the `Except`. -/
def text_completion_ability (settings : Dict) (http : HttpOutcome)
    (prompt : String) : Except PyErr Value :=
  match get_setting settings "LLM_PROVIDER" .none with
  | .str s =>
    let provider := pyLower s
    if provider = "ollama" then .ok (ollama_completion http prompt)
    else if provider = "anthropic" then .ok (anthropic_completion http prompt)
    else if provider = "openai" then .ok (openai_completion http prompt)
    else .ok (.str ("Error: Unknown LLM provider \x27" ++ provider ++ "\x27"))
  | v =>
    .error (.attributeError
      ("\x27" ++ v.typeName ++ "\x27 object has no attribute \x27lower\x27"))

/-! ## `src/utils/prompt_templates.py` -/

def default_tasks_template : String :=
  "\n        You are a task planning AI. Create a list of 3-5 tasks to achieve this objective: \x7bobje"
  ++ "ctive\x7d.\n        Available abilities: [text-completion] only.\n        Format as JSON array with "
  ++ "these fields for each task:\n        - id: sequential number starting at 1\n        - task: detailed"
  ++ " description of what to do\n        - ability: always \x27text-completion\x27\n        - dependent_t"
  ++ "ask_ids: empty array or array of task IDs this depends on\n        - status: always \x27incomplete\x27\n        The final task should always be to create a summary report of all findings.\n        Exa"
  ++ "mple: [\x7b\"id\": 1, \"task\": \"Research top attractions in Bangkok\", \"ability\": \"text-complet"
  ++ "ion\", \"dependent_task_ids\": [], \"status\": \"incomplete\"\x7d]\n    "

def marketing_insights_template : String :=
  "\n    You are an expert marketing AI consultant. Create a list of 3-5 specific, data-driven insights"
  ++ " to help achieve this objective: \x7bobjective\x7d.\n    Available abilities: [text-completion] only"
  ++ ".\n    Each insight should be highly actionable and lead to a specific, measurable marketing improve"
  ++ "ment.\n    Format as JSON array with these fields for each insight:\n    - id: sequential number sta"
  ++ "rting at 1\n    - insight: detailed description of the marketing finding and its business impact\n  "
  ++ "  - action_item: specific, concrete steps the shop owner should take to implement this insight\n    "
  ++ "- expected_outcome: measurable results the shop owner can expect\n    - implementation_difficulty: r"
  ++ "ated as \x27easy\x27, \x27medium\x27, or \x27hard\x27\n    - priority: rated as \x27high\x27, \x27me"
  ++ "dium\x27, or \x27low\x27 based on potential impact\n    - ability: always \x27text-completion\x27\n "
  ++ "   - dependent_insight_ids: empty array or array of insight IDs this depends on\n    - status: alway"
  ++ "s \x27ready_to_implement\x27\n    The final insight should always connect all previous insights into"
  ++ " a cohesive marketing strategy.\n    Example: [\x7b\"id\": 1, \"insight\": \"Analysis shows 68% of a"
  ++ "bandoned carts occur during the shipping cost reveal, indicating price sensitivity\", \"action_item\": \"Implement a free shipping threshold at $50 and highlight progress toward free shipping on produ"
  ++ "ct pages\", \"expected_outcome\": \"15-20% reduction in cart abandonment rate and 10% increase in av"
  ++ "erage order value\", \"implementation_difficulty\": \"medium\", \"priority\": \"high\", \"ability\":"
  ++ " \"text-completion\", \"dependent_insight_ids\": [], \"status\": \"ready_to_implement\"\x7d]\n    "

def propensity_modeling_template : String :=
  "\n    You are an expert marketing analytics consultant specializing in propensity modeling. Your tas"
  ++ "k is to create a highly personalized email newsletter campaign targeting 10 specific customers based"
  ++ " on their purchase history and behavioral data related to this objective: \x7bobjective\x7d.\n    Av"
  ++ "ailable abilities: [text-completion] only.\n    Using propensity matching techniques, analyze the cu"
  ++ "stomer database to identify the perfect product recommendation for each customer.\n    Format as JSO"
  ++ "N array with these fields for the email campaign:\n    - campaign_id: unique identifier for this new"
  ++ "sletter campaign\n    - campaign_name: catchy, descriptive name for the campaign\n    - subject_line"
  ++ ": compelling email subject line with personalization\n    - recommendations: array of 10 customer-pr"
  ++ "oduct pairings with these fields for each:\n      - customer_id: integer identifier for the customer"
  ++ "\n      - customer_segment: brief description of this customer\x27s category/profile\n      - purcha"
  ++ "se_history_summary: brief overview of relevant past purchases\n      - recommended_product_id: produ"
  ++ "ct identifier\n      - recommended_product_name: name of the recommended product\n      - propensity"
  ++ "_score: number between 0.1-1.0 indicating likelihood of purchase\n      - recommendation_rationale: "
  ++ "detailed explanation of why this product matches this customer\n      - personalized_message: short,"
  ++ " customized text for this specific customer-product pairing\n      - suggested_discount: recommended"
  ++ " discount percentage if appropriate\n    - expected_campaign_metrics: projection of open rate, click"
  ++ " rate, and conversion rate\n    - follow_up_strategy: brief description of how to measure results an"
  ++ "d iterate\n    Ensure recommendations use realistic product types and customer behaviors. Incorporat"
  ++ "e affinity analysis, look-alike modeling principles, and predictive targeting techniques in your rat"
  ++ "ionales.\n    Example: \x7b\"campaign_id\": \"PM2025-03\", \"campaign_name\": \"Spring Personalized "
  ++ "Picks\", \"subject_line\": \"\x7b\x7bFirstName\x7d\x7d, We\x27ve Found Your Perfect Match\", \"recom"
  ++ "mendations\": [\x7b\"customer_id\": 1, \"customer_segment\": \"Luxury Beauty Enthusiast\", \"purchas"
  ++ "e_history_summary\": \"Frequently purchases high-end skincare, focus on anti-aging\", \"recommended_"
  ++ "product_id\": \"SK-447\", \"recommended_product_name\": \"Premium Vitamin C Serum\", \"propensity_sc"
  ++ "ore\": 0.89, \"recommendation_rationale\": \"Based on previous purchases of complementary serums and"
  ++ " browsing history focused on brightening products\", \"personalized_message\": \"Your skincare routi"
  ++ "ne is missing this perfect finishing touch!\", \"suggested_discount\": \"0%\"\x7d]\x7d\n    "

/-- The `PROMPT_TEMPLATES` module dictionary, in insertion order. -/
def PROMPT_TEMPLATES : List (String × String) :=
  [("default_tasks", default_tasks_template),
   ("marketing_insights", marketing_insights_template),
   ("propensity_modeling", propensity_modeling_template)]

/-- The dict comprehension `{k.lower(): v for k, v in kwargs.items()}`:
keys lowercased, a later duplicate overwrites the earlier value in
place (Python dict semantics). -/
def dict_set (d : Dict) (k : String) (v : Value) : Dict :=
  if (d.find? fun p => p.1 == k).isSome then
    d.map fun p => if p.1 == k then (k, v) else p
  else d ++ [(k, v)]

/-- Lowercase all kwarg keys, building the dictionary left to right. -/
def lowercase_kwargs (kwargs : List (String × Value)) : Dict :=
  kwargs.foldl (fun acc p => dict_set acc (pyLower p.1) p.2) []

/-- The manual replacement loop of `get_prompt_template`: for each
(lowercased) kwarg in order, if `"{key}"` occurs in the current result
it is replaced everywhere by `str(value)` (the `in` guard is modelled by
`splitOn`; a missing placeholder only logs a warning). -/
def apply_placeholders (template : String) (kwargs : Dict) : String :=
  kwargs.foldl
    (fun result p =>
      let placeholder := "\x7b" ++ p.1 ++ "\x7d"
      if (result.splitOn placeholder).length > 1 then
        result.replace placeholder p.2.pyStr
      else result)
    template

/-- Python `str.strip()` whitespace. -/
def isPyWhitespace (c : Char) : Bool :=
  c = ' ' || c = '\t' || c = '\n' || c = '\r' || c = '\x0b' || c = '\x0c'

/-- Python `s.strip()`. -/
def pyStrip (s : String) : String :=
  String.mk
    (((s.toList.dropWhile isPyWhitespace).reverse.dropWhile
        isPyWhitespace).reverse)

/-- Model of `get_prompt_template(template_name, **kwargs)`: looks the template
up, falls back to `"default_tasks"` when the lookup misses or yields a
falsy (empty) template, lowercases the kwarg keys, replaces the
placeholders, and strips the result.  The trailing `re.findall` check
only logs; the `except` branch is unreachable in this pure model. -/
def get_prompt_template (template_name : String)
    (kwargs : List (String × Value)) : String :=
  let looked := (PROMPT_TEMPLATES.find? fun p => p.1 == template_name).map (·.2)
  let fallback :=
    ((PROMPT_TEMPLATES.find? fun p => p.1 == "default_tasks").map (·.2)).getD ""
  let template :=
    match looked with
    | Option.some t => if t = "" then fallback else t
    | Option.none => fallback
  pyStrip (apply_placeholders template (lowercase_kwargs kwargs))

/-! ## Glue: registration of the text-completion ability

`abilities/__init__.py` registers `text_completion_ability` under the name
`"text-completion"`.  The Python function takes a single positional
`prompt` argument; calling it with any other shape raises `TypeError`
before its body runs. -/

/-- The function `text_completion_ability` as it sits in the registry: a callable over
`(*args, **kwargs)` that requires exactly one positional argument. -/
def text_completion_fn (settings : Dict) (http : HttpOutcome) : AbilityFn :=
  fun args kwargs =>
    match args, kwargs with
    | [v], [] => text_completion_ability settings http v.pyStr
    | _, _ =>
      .error (.typeError
        "text_completion_ability() takes 1 positional argument")

/-- The `LLM_PROVIDER` default from `config/settings.py` (`"ollama"`), as
the slice of the settings mapping the text-completion dispatch reads. -/
def ollama_settings : Dict := [("LLM_PROVIDER", .str "ollama")]

/-- The eight descriptor keys `Task.from_dict` pops before storing the
remainder as `_additional_attributes`. -/
def is_known_descriptor_key (s : String) : Bool :=
  s == "id" || s == "status" || s == "ability" ||
  s == "dependent_task_ids" || s == "created_at" ||
  s == "completed_at" || s == "output" || s == "metadata"

/-- The task produced from the minimal descriptor `{"id": 1}` when
`datetime.now()` reads tick 0: handy concrete instance for witnesses. -/
def task_of_min_descriptor : Task :=
  { id := .int 1
    status := .str "incomplete"
    ability := .str "text-completion"
    dependent_task_ids := .list []
    output := .none
    created_at := .time (.clock 0)
    completed_at := .none
    metadata := .dict []
    _additional_attributes := [] }

end ReasonLoop

namespace ReasonLoop

/-! ## Helper lemmas on the dictionary model -/

/-- Looking a key up after removing a different key is unchanged. -/
theorem dget_dremove_ne (k k' : String) (h : k ≠ k') (d : Dict) :
    dget (dremove d k') k = dget d k := by
  induction d with
  | nil => rfl
  | cons p tl ih =>
    by_cases hp : p.1 = k'
    · have hpk : ¬ p.1 = k := by rw [hp]; exact fun he => h he.symm
      show dget (List.filter (fun q => q.1 != k') (p :: tl)) k = dget (p :: tl) k
      rw [List.filter_cons_of_neg (by simp [hp])]
      have hskip : dget (p :: tl) k = dget tl k := by
        unfold dget
        rw [List.find?_cons_of_neg _ (by simp [hpk])]
      rw [hskip]
      exact ih
    · show dget (List.filter (fun q => q.1 != k') (p :: tl)) k = dget (p :: tl) k
      rw [List.filter_cons_of_pos (by simp [hp])]
      by_cases hk : p.1 = k
      · unfold dget
        rw [List.find?_cons_of_pos _ (by simp [hk]),
            List.find?_cons_of_pos _ (by simp [hk])]
      · unfold dget
        rw [List.find?_cons_of_neg _ (by simp [hk]),
            List.find?_cons_of_neg _ (by simp [hk])]
        exact ih

/-- The eight successive `pop`s of `Task.from_dict` leave exactly the
entries with unknown keys, in order. -/
theorem dremove_known_eq_filter (data : Dict) :
    dremove (dremove (dremove (dremove (dremove (dremove (dremove
      (dremove data "id") "status") "ability") "dependent_task_ids")
      "created_at") "completed_at") "output") "metadata"
    = data.filter fun p => !(is_known_descriptor_key p.1) := by
  simp only [dremove, List.filter_filter]
  apply List.filter_congr
  intro a _
  simp only [is_known_descriptor_key, bne, Bool.not_or]
  generalize (a.1 == "id") = b1
  generalize (a.1 == "status") = b2
  generalize (a.1 == "ability") = b3
  generalize (a.1 == "dependent_task_ids") = b4
  generalize (a.1 == "created_at") = b5
  generalize (a.1 == "completed_at") = b6
  generalize (a.1 == "output") = b7
  generalize (a.1 == "metadata") = b8
  revert b1 b2 b3 b4 b5 b6 b7 b8
  decide

/-- Full characterization of a successful `Task.from_dict` call, with
every popped field related back to the original dictionary: the id is
present and both timestamp conversions succeed. -/
theorem from_dict_some (data : Dict) (now : PyTime) (isoOk : String → Bool)
    (v ca cc : Value)
    (hid : dget data "id" = Option.some v)
    (hca : convert_created_at isoOk now
        ((dget data "created_at").getD .none) = .ok ca)
    (hcc : convert_completed_at isoOk
        ((dget data "completed_at").getD .none) = .ok cc) :
    Task.from_dict data now isoOk =
      .ok
        ({ id := v
           status := (dget data "status").getD (.str "incomplete")
           ability := (dget data "ability").getD (.str "text-completion")
           dependent_task_ids :=
             (dget data "dependent_task_ids").getD (.list [])
           output := (dget data "output").getD .none
           created_at := ca
           completed_at := cc
           metadata := (dget data "metadata").getD (.dict [])
           _additional_attributes :=
             data.filter fun p => !(is_known_descriptor_key p.1) },
         data.filter fun p => !(is_known_descriptor_key p.1)) := by
  unfold Task.from_dict
  rw [hid]
  simp only [dpop, dremove_known_eq_filter, hca, hcc,
    dget_dremove_ne "status" "id" (by decide),
    dget_dremove_ne "ability" "id" (by decide),
    dget_dremove_ne "ability" "status" (by decide),
    dget_dremove_ne "dependent_task_ids" "id" (by decide),
    dget_dremove_ne "dependent_task_ids" "status" (by decide),
    dget_dremove_ne "dependent_task_ids" "ability" (by decide),
    dget_dremove_ne "created_at" "id" (by decide),
    dget_dremove_ne "created_at" "status" (by decide),
    dget_dremove_ne "created_at" "ability" (by decide),
    dget_dremove_ne "created_at" "dependent_task_ids" (by decide),
    dget_dremove_ne "completed_at" "id" (by decide),
    dget_dremove_ne "completed_at" "status" (by decide),
    dget_dremove_ne "completed_at" "ability" (by decide),
    dget_dremove_ne "completed_at" "dependent_task_ids" (by decide),
    dget_dremove_ne "completed_at" "created_at" (by decide),
    dget_dremove_ne "output" "id" (by decide),
    dget_dremove_ne "output" "status" (by decide),
    dget_dremove_ne "output" "ability" (by decide),
    dget_dremove_ne "output" "dependent_task_ids" (by decide),
    dget_dremove_ne "output" "created_at" (by decide),
    dget_dremove_ne "output" "completed_at" (by decide),
    dget_dremove_ne "metadata" "id" (by decide),
    dget_dremove_ne "metadata" "status" (by decide),
    dget_dremove_ne "metadata" "ability" (by decide),
    dget_dremove_ne "metadata" "dependent_task_ids" (by decide),
    dget_dremove_ne "metadata" "created_at" (by decide),
    dget_dremove_ne "metadata" "completed_at" (by decide),
    dget_dremove_ne "metadata" "output" (by decide)]

/-- A descriptor without an `id` key makes `from_dict` raise `KeyError`
before anything else. -/
theorem from_dict_none (data : Dict) (now : PyTime) (isoOk : String → Bool)
    (hid : dget data "id" = Option.none) :
    Task.from_dict data now isoOk = .error (.keyError "id") := by
  unfold Task.from_dict
  rw [hid]

/-- A failing `created_at` conversion propagates its `ValueError` out of
`from_dict`. -/
theorem from_dict_created_error (data : Dict) (now : PyTime)
    (isoOk : String → Bool) (v : Value) (e : PyErr)
    (hid : dget data "id" = Option.some v)
    (hca : convert_created_at isoOk now
        ((dget data "created_at").getD .none) = .error e) :
    Task.from_dict data now isoOk = .error e := by
  unfold Task.from_dict
  rw [hid]
  simp only [dpop, hca,
    dget_dremove_ne "created_at" "id" (by decide),
    dget_dremove_ne "created_at" "status" (by decide),
    dget_dremove_ne "created_at" "ability" (by decide),
    dget_dremove_ne "created_at" "dependent_task_ids" (by decide)]

/-- A failing `completed_at` conversion (after a successful `created_at`
one) propagates its `ValueError` out of `from_dict`. -/
theorem from_dict_completed_error (data : Dict) (now : PyTime)
    (isoOk : String → Bool) (v ca : Value) (e : PyErr)
    (hid : dget data "id" = Option.some v)
    (hca : convert_created_at isoOk now
        ((dget data "created_at").getD .none) = .ok ca)
    (hcc : convert_completed_at isoOk
        ((dget data "completed_at").getD .none) = .error e) :
    Task.from_dict data now isoOk = .error e := by
  unfold Task.from_dict
  rw [hid]
  simp only [dpop, hca, hcc,
    dget_dremove_ne "created_at" "id" (by decide),
    dget_dremove_ne "created_at" "status" (by decide),
    dget_dremove_ne "created_at" "ability" (by decide),
    dget_dremove_ne "created_at" "dependent_task_ids" (by decide),
    dget_dremove_ne "completed_at" "id" (by decide),
    dget_dremove_ne "completed_at" "status" (by decide),
    dget_dremove_ne "completed_at" "ability" (by decide),
    dget_dremove_ne "completed_at" "dependent_task_ids" (by decide),
    dget_dremove_ne "completed_at" "created_at" (by decide)]

/-- Inversion of a successful `Task.from_dict` call: the id was present,
both timestamp conversions succeeded, and the task and leftover
dictionary are the characterized ones. -/
theorem from_dict_ok_inv (data : Dict) (now : PyTime) (isoOk : String → Bool)
    (t : Task) (rest : Dict)
    (h : Task.from_dict data now isoOk = .ok (t, rest)) :
    ∃ v ca cc,
      dget data "id" = Option.some v ∧
      convert_created_at isoOk now
        ((dget data "created_at").getD .none) = .ok ca ∧
      convert_completed_at isoOk
        ((dget data "completed_at").getD .none) = .ok cc ∧
      t = { id := v
            status := (dget data "status").getD (.str "incomplete")
            ability := (dget data "ability").getD (.str "text-completion")
            dependent_task_ids :=
              (dget data "dependent_task_ids").getD (.list [])
            output := (dget data "output").getD .none
            created_at := ca
            completed_at := cc
            metadata := (dget data "metadata").getD (.dict [])
            _additional_attributes :=
              data.filter fun p => !(is_known_descriptor_key p.1) } ∧
      rest = data.filter fun p => !(is_known_descriptor_key p.1) := by
  cases hid : dget data "id" with
  | none => rw [from_dict_none data now isoOk hid] at h; cases h
  | some v =>
    cases hca : convert_created_at isoOk now
        ((dget data "created_at").getD .none) with
    | error e =>
      rw [from_dict_created_error data now isoOk v e hid hca] at h
      cases h
    | ok ca =>
      cases hcc : convert_completed_at isoOk
          ((dget data "completed_at").getD .none) with
      | error e =>
        rw [from_dict_completed_error data now isoOk v ca e hid hca hcc] at h
        cases h
      | ok cc =>
        rw [from_dict_some data now isoOk v ca cc hid hca hcc] at h
        injection h with h'
        injection h' with h1 h2
        exact ⟨v, ca, cc, rfl, rfl, rfl, h1.symm, h2.symm⟩

end ReasonLoop

namespace ReasonLoop

/-! ## Claims about `Task.from_dict` (C1, C3, C5, C6, C10) -/

/-- C1 is false as stated: `Task.from_dict` does **not** ignore or
overwrite the descriptor's `status` field.  The concrete descriptor
`{"id": 1, "status": "ready_to_implement"}` yields a task whose status
is `"ready_to_implement"`, not `"incomplete"`. -/
theorem from_dict_status_counterexample :
    (Task.from_dict [("id", .int 1), ("status", .str "ready_to_implement")]
        (.clock 0) (fun _ => true)).map (fun p => p.1.status)
      = .ok (.str "ready_to_implement")
    ∧ Value.str "ready_to_implement" ≠ Value.str "incomplete" := by
  refine ⟨rfl, fun h => ?_⟩
  injection h with h'
  exact absurd h' (by decide)

/-- C1 (amended): `Task.from_dict` takes `status` from the descriptor
whenever the key is present; only a descriptor without a `status` key
yields the initial status `"incomplete"`. -/
theorem from_dict_status_from_descriptor (data : Dict) (now : PyTime)
    (isoOk : String → Bool) (t : Task) (rest : Dict)
    (h : Task.from_dict data now isoOk = .ok (t, rest)) :
    t.status = (dget data "status").getD (.str "incomplete") := by
  obtain ⟨v, ca, cc, hid, hca, hcc, ht, hrest⟩ :=
    from_dict_ok_inv data now isoOk t rest h
  rw [ht]

theorem from_dict_status_from_descriptor_witness :
    task_of_min_descriptor.status
      = (dget [("id", .int 1)] "status").getD (.str "incomplete") :=
  from_dict_status_from_descriptor [("id", .int 1)] (.clock 0)
    (fun _ => true) task_of_min_descriptor [] rfl

/-- C3 is false as stated: the unknown key `"priority"` is not folded
into the resulting task's `metadata` (which stays `{}`); it lands in the
separate `_additional_attributes` bag. -/
theorem from_dict_metadata_counterexample :
    (Task.from_dict [("id", .int 1), ("priority", .str "high")]
        (.clock 0) (fun _ => true)).map
        (fun p => (p.1.metadata, p.1._additional_attributes))
      = .ok (Value.dict [], [("priority", Value.str "high")]) := rfl

/-- C3 (amended): every key outside the known schema is folded into the
task's `_additional_attributes` bag (reachable per attribute through
`__getattr__`), not into `metadata`; the `metadata` key itself is passed
through unmodified (defaulting to `{}`). -/
theorem from_dict_unknown_keys_to_bag (data : Dict) (now : PyTime)
    (isoOk : String → Bool) (t : Task) (rest : Dict)
    (h : Task.from_dict data now isoOk = .ok (t, rest)) :
    t._additional_attributes
        = data.filter (fun p => !(is_known_descriptor_key p.1)) ∧
    t.metadata = (dget data "metadata").getD (.dict []) := by
  obtain ⟨v, ca, cc, hid, hca, hcc, ht, hrest⟩ :=
    from_dict_ok_inv data now isoOk t rest h
  rw [ht]
  exact ⟨rfl, rfl⟩

theorem from_dict_unknown_keys_to_bag_witness :
    ({ task_of_min_descriptor with
        _additional_attributes := [("priority", Value.str "high")] }
          : Task)._additional_attributes
        = ([("id", Value.int 1), ("priority", Value.str "high")].filter
            (fun p => !(is_known_descriptor_key p.1)))
    ∧ ({ task_of_min_descriptor with
          _additional_attributes := [("priority", Value.str "high")] }
            : Task).metadata
        = (dget [("id", Value.int 1), ("priority", Value.str "high")]
            "metadata").getD (.dict []) :=
  from_dict_unknown_keys_to_bag
    [("id", .int 1), ("priority", .str "high")] (.clock 0) (fun _ => true)
    { task_of_min_descriptor with
        _additional_attributes := [("priority", Value.str "high")] }
    [("priority", Value.str "high")] rfl

/-- C5 is false as stated: a plan descriptor carrying an `output` field
passes it straight into the task, so this task has non-`None` output
while its status is still `"incomplete"` — `mark_complete` is not the
only way output gets set. -/
theorem from_dict_output_counterexample :
    (Task.from_dict [("id", .int 1), ("output", .str "early")]
        (.clock 0) (fun _ => true)).map (fun p => (p.1.status, p.1.output))
      = .ok (Value.str "incomplete", Value.str "early")
    ∧ Value.str "early" ≠ Value.none := by
  exact ⟨rfl, fun h => Value.noConfusion h⟩

/-- C5 (amended): `mark_complete` simultaneously sets status to
`"complete"`, stores the output and stamps `completed_at`; and a task
built from a descriptor without an `output` key starts with output
`None`.  (A descriptor may however inject an output directly, see the
counterexample.) -/
theorem mark_complete_sets_output : 
    (∀ (t : Task) (out : String) (now : PyTime),
      (t.mark_complete out now).status = .str "complete" ∧
      (t.mark_complete out now).output = .str out ∧
      (t.mark_complete out now).completed_at = .time now) ∧
    (∀ (data : Dict) (now : PyTime) (isoOk : String → Bool)
        (t : Task) (rest : Dict),
      Task.from_dict data now isoOk = .ok (t, rest) →
      dget data "output" = Option.none → t.output = Value.none) := by
  constructor
  · exact fun t out now => ⟨rfl, rfl, rfl⟩
  · intro data now isoOk t rest h hout
    obtain ⟨v, ca, cc, hid, hca, hcc, ht, hrest⟩ :=
      from_dict_ok_inv data now isoOk t rest h
    rw [ht]
    show (dget data "output").getD Value.none = Value.none
    rw [hout]
    rfl

theorem mark_complete_sets_output_witness :
    ((task_of_min_descriptor.mark_complete "done" (.clock 3)).status
        = .str "complete" ∧
     (task_of_min_descriptor.mark_complete "done" (.clock 3)).output
        = .str "done" ∧
     (task_of_min_descriptor.mark_complete "done" (.clock 3)).completed_at
        = .time (.clock 3)) ∧
    task_of_min_descriptor.output = Value.none :=
  ⟨mark_complete_sets_output.1 task_of_min_descriptor "done" (.clock 3),
   mark_complete_sets_output.2 [("id", .int 1)] (.clock 0) (fun _ => true)
     task_of_min_descriptor [] rfl rfl⟩

/-- C6 is false as stated: a descriptor with an `id` does not always
yield a task.  On `{"id": 7, "created_at": "garbage"}` the source calls
`datetime.fromisoformat("garbage")` (task.py line 43), which raises
`ValueError` — the oracle `fun _ => false` records that the stdlib
parser rejects `"garbage"` — so `from_dict` raises and no task is
built. -/
theorem from_dict_invalid_isoformat_counterexample :
    Task.from_dict [("id", .int 7), ("created_at", .str "garbage")]
        (.clock 0) (fun _ => false)
      = .error (.valueError "Invalid isoformat string: \x27garbage\x27") :=
  rfl

/-- C6 (amended): a plan descriptor without an `id` key makes
`Task.from_dict` raise `KeyError` instead of building a task; a
descriptor with an `id` yields a task whose id equals that value
provided the `created_at`/`completed_at` conversions succeed (the fields
are absent, falsy, or ISO strings the stdlib parser accepts); a
malformed non-empty `created_at` string instead propagates
`fromisoformat`'s `ValueError`. -/
theorem from_dict_requires_id (data : Dict) (now : PyTime)
    (isoOk : String → Bool) :
    (dget data "id" = Option.none →
      Task.from_dict data now isoOk = .error (.keyError "id")) ∧
    (∀ v ca cc, dget data "id" = Option.some v →
      convert_created_at isoOk now
          ((dget data "created_at").getD .none) = .ok ca →
      convert_completed_at isoOk
          ((dget data "completed_at").getD .none) = .ok cc →
      ∃ t rest,
        Task.from_dict data now isoOk = .ok (t, rest) ∧ t.id = v) ∧
    (∀ v e, dget data "id" = Option.some v →
      convert_created_at isoOk now
          ((dget data "created_at").getD .none) = .error e →
      Task.from_dict data now isoOk = .error e) := by
  refine ⟨from_dict_none data now isoOk, ?_, ?_⟩
  · intro v ca cc hid hca hcc
    exact ⟨_, _, from_dict_some data now isoOk v ca cc hid hca hcc, rfl⟩
  · intro v e hid hca
    exact from_dict_created_error data now isoOk v e hid hca

theorem from_dict_requires_id_witness :
    Task.from_dict [("answer", .int 42)] (.clock 0) (fun _ => true)
        = .error (.keyError "id") ∧
    (∃ t rest,
      Task.from_dict [("id", .int 7)] (.clock 0) (fun _ => true)
          = .ok (t, rest) ∧ t.id = .int 7) ∧
    Task.from_dict [("id", .int 7), ("created_at", .str "2024-13-99")]
        (.clock 0) (fun _ => false)
      = .error (.valueError
          "Invalid isoformat string: \x272024-13-99\x27") :=
  ⟨(from_dict_requires_id [("answer", .int 42)] (.clock 0)
      (fun _ => true)).1 rfl,
   (from_dict_requires_id [("id", .int 7)] (.clock 0) (fun _ => true)).2.1
     (.int 7) (.time (.clock 0)) Value.none rfl rfl rfl,
   (from_dict_requires_id [("id", .int 7), ("created_at", .str "2024-13-99")]
       (.clock 0) (fun _ => false)).2.2 (.int 7)
     (.valueError "Invalid isoformat string: \x272024-13-99\x27") rfl rfl⟩

/-- C10: `Task.from_dict` pops the eight known schema keys out of the
caller's dictionary — after the call the dictionary holds exactly the
unknown-key entries, in order — and the task's `_additional_attributes`
bag is that very (post-pop) dictionary.  (Object identity of the alias
is outside a pure model; the observable dictionary contents are
captured.) -/
theorem from_dict_mutates_caller_dict (data : Dict) (now : PyTime)
    (isoOk : String → Bool) (t : Task) (rest : Dict)
    (h : Task.from_dict data now isoOk = .ok (t, rest)) :
    rest = data.filter (fun p => !(is_known_descriptor_key p.1)) ∧
    t._additional_attributes = rest := by
  obtain ⟨v, ca, cc, hid, hca, hcc, ht, hrest⟩ :=
    from_dict_ok_inv data now isoOk t rest h
  refine ⟨hrest, ?_⟩
  rw [ht, hrest]

theorem from_dict_mutates_caller_dict_witness :
    [("task", Value.str "write")]
        = ([("id", Value.int 1), ("task", Value.str "write")].filter
            (fun p => !(is_known_descriptor_key p.1))) ∧
    ({ task_of_min_descriptor with
        _additional_attributes := [("task", Value.str "write")] }
          : Task)._additional_attributes
        = [("task", Value.str "write")] :=
  from_dict_mutates_caller_dict
    [("id", .int 1), ("task", .str "write")] (.clock 0) (fun _ => true)
    { task_of_min_descriptor with
        _additional_attributes := [("task", Value.str "write")] }
    [("task", Value.str "write")] rfl

end ReasonLoop

namespace ReasonLoop

/-! ## Claims about `__str__`, the registry and the templates
(C9, C4, C2, C7, C8) -/

/-- C9: for any task whose additional-attribute bag has no `"task"` key
(so in particular any task built by the plain constructor, or from a
descriptor that keyed its instruction `"insight"`), `str(task)` raises
`AttributeError`: the effective (second) `__str__` reads `self.task`,
which falls through `__getattr__`. -/
theorem task_str_raises_without_task_attr (t : Task)
    (h : dget t._additional_attributes "task" = Option.none) :
    t.toPyString = .error (.attributeError
      "\x27Task\x27 object has no attribute \x27task\x27") := by
  unfold Task.toPyString Task.getattr
  rw [h]
  rfl

theorem task_str_raises_without_task_attr_witness :
    task_of_min_descriptor.toPyString = .error (.attributeError
      "\x27Task\x27 object has no attribute \x27task\x27") :=
  task_str_raises_without_task_attr task_of_min_descriptor rfl

/-- C4: invoking an unregistered ability name through `execute_ability`
raises the not-found failure (`ValueError("Ability not found: ...")`)
and makes no log report — for every registry lacking the name and every
choice of ability functions, so no ability function is consulted. -/
theorem execute_ability_not_found (reg : List (String × AbilityFn))
    (name : String) (args : List Value) (kwargs : Dict)
    (execution_time : Nat) (h : get_ability reg name = Option.none) :
    execute_ability reg name args kwargs execution_time
      = (.error (.valueError ("Ability not found: " ++ name)), []) := by
  unfold execute_ability
  rw [h]

theorem execute_ability_not_found_witness :
    execute_ability
        [("text-completion", text_completion_fn ollama_settings (.body []))]
        "mystery-ability" [] [] 0
      = (.error (.valueError ("Ability not found: " ++ "mystery-ability")),
         []) :=
  execute_ability_not_found _ "mystery-ability" [] [] 0 rfl

/-- C2 is false as stated: when the Ollama HTTP call fails (raises or
returns a non-success status), `_ollama_completion` catches the
exception and returns the error text as an ordinary string, and the
registry invocation of the text-completion ability therefore returns
normally with that text — no typed error is raised. -/
theorem text_completion_error_counterexample :
    ollama_completion (.failure "Connection refused") "hello"
        = .str "Error calling Ollama API: Connection refused" ∧
    (execute_ability
        [("text-completion",
          text_completion_fn ollama_settings (.failure "Connection refused"))]
        "text-completion" [.str "hello"] [] 0).1
      = .ok (.str "Error calling Ollama API: Connection refused") :=
  ⟨rfl, rfl⟩

/-- C2 (amended): an Ollama-backend failure is swallowed, not raised:
`_ollama_completion` returns the string `"Error calling Ollama API:
<cause>"` normally, `text_completion_ability` (under the default
provider `"ollama"`) returns it as its result, and the invocation
through `execute_ability` succeeds with that text. -/
theorem text_completion_error_returns_string (e prompt : String) :
    ollama_completion (.failure e) prompt
        = .str ("Error calling Ollama API: " ++ e) ∧
    text_completion_ability ollama_settings (.failure e) prompt
        = .ok (.str ("Error calling Ollama API: " ++ e)) ∧
    (execute_ability
        [("text-completion", text_completion_fn ollama_settings (.failure e))]
        "text-completion" [.str prompt] [] 0).1
      = .ok (.str ("Error calling Ollama API: " ++ e)) :=
  ⟨rfl, rfl, rfl⟩

/-- C7: when the name is registered, `execute_ability` makes exactly one
report to the prompt/response log — carrying the instruction, the
response text or the `"ERROR: ..."` rendering, the ability name and the
timing — whether the ability returns or raises, and on the raising path
the original exception is still the call's outcome after logging. -/
theorem execute_ability_logs_each_attempt (reg : List (String × AbilityFn))
    (name : String) (f : AbilityFn) (args : List Value) (kwargs : Dict)
    (execution_time : Nat) (h : get_ability reg name = Option.some f) :
    (execute_ability reg name args kwargs execution_time).1
        = f args (dremove kwargs "task_id") ∧
    ∃ entry : LogEntry,
      (execute_ability reg name args kwargs execution_time).2 = [entry] ∧
      entry.ability = name ∧
      entry.execution_time = execution_time ∧
      entry.task_id = (dget kwargs "task_id").getD .none ∧
      entry.prompt
        = (match args with
           | .str s :: _ => s
           | _ => (Value.list args).pyStr) ∧
      entry.response
        = (match f args (dremove kwargs "task_id") with
           | .ok v => (match v with | .str s => s | v => v.pyStr)
           | .error e => "ERROR: " ++ e.msg) := by
  unfold execute_ability
  rw [h]
  simp only [dpop]
  cases hr : f args (dremove kwargs "task_id") with
  | ok v => exact ⟨rfl, _, rfl, rfl, rfl, rfl, rfl, rfl⟩
  | error e => exact ⟨rfl, _, rfl, rfl, rfl, rfl, rfl, rfl⟩

theorem execute_ability_logs_each_attempt_witness :
    (execute_ability
        [("echo", (fun _ _ => Except.ok (Value.str "pong") : AbilityFn))]
        "echo" [Value.str "hi"] [] 7).1 = Except.ok (Value.str "pong") ∧
    ∃ entry : LogEntry,
      (execute_ability
          [("echo", (fun _ _ => Except.ok (Value.str "pong") : AbilityFn))]
          "echo" [Value.str "hi"] [] 7).2 = [entry] ∧
      entry.ability = "echo" ∧
      entry.execution_time = 7 ∧
      entry.task_id = Value.none ∧
      entry.prompt = "hi" ∧
      entry.response = "pong" :=
  execute_ability_logs_each_attempt
    [("echo", (fun _ _ => Except.ok (Value.str "pong") : AbilityFn))]
    "echo" (fun _ _ => Except.ok (Value.str "pong"))
    [Value.str "hi"] [] 7 rfl

/-- C8: a template name missing from `PROMPT_TEMPLATES` does not make
`get_prompt_template` fail: it silently falls back to the
`"default_tasks"` template, formats it with the lowercased kwargs
(each `{key}` placeholder replaced everywhere by `str(value)`) and
returns the stripped result — the same output the known name
`"default_tasks"` would give. -/
theorem get_prompt_template_fallback (template_name : String)
    (kwargs : List (String × Value))
    (h : (PROMPT_TEMPLATES.find? fun p => p.1 == template_name)
        = Option.none) :
    get_prompt_template template_name kwargs
        = pyStrip (apply_placeholders default_tasks_template
            (lowercase_kwargs kwargs)) ∧
    get_prompt_template template_name kwargs
        = get_prompt_template "default_tasks" kwargs := by
  have main : get_prompt_template template_name kwargs
      = pyStrip (apply_placeholders default_tasks_template
          (lowercase_kwargs kwargs)) := by
    unfold get_prompt_template
    rw [h]
    rfl
  have fb : get_prompt_template "default_tasks" kwargs
      = pyStrip (apply_placeholders default_tasks_template
          (lowercase_kwargs kwargs)) := by
    show pyStrip (apply_placeholders
        (if default_tasks_template = ""
         then ((PROMPT_TEMPLATES.find?
                  fun p => p.1 == "default_tasks").map (·.2)).getD ""
         else default_tasks_template)
        (lowercase_kwargs kwargs)) = _
    rw [if_neg (by decide)]
  exact ⟨main, main.trans fb.symm⟩

theorem get_prompt_template_fallback_witness :
    (get_prompt_template "mystery_template" [("OBJECTIVE", .str "explore")]
        = pyStrip (apply_placeholders default_tasks_template
            (lowercase_kwargs [("OBJECTIVE", .str "explore")]))) ∧
    get_prompt_template "mystery_template" [("OBJECTIVE", .str "explore")]
        = get_prompt_template "default_tasks" [("OBJECTIVE", .str "explore")] :=
  get_prompt_template_fallback "mystery_template"
    [("OBJECTIVE", .str "explore")] rfl

end ReasonLoop
